import Mathlib

/-!
Verification of the Django test project `test-projects/backend/04-django-python`
(files `myproject/settings.py` and `myproject/urls.py`) against its
natural-language specification.

The embedding models the HTTP surface of the configured application:
the settings constants from `settings.py`, the two view functions and the
URL pattern table from `urls.py`, and the request dispatch the configured
Django stack performs (root URL resolver, the development static-file
handler enabled by `django.contrib.staticfiles` with `DEBUG = True`, and
the trailing-slash redirect of `django.middleware.common.CommonMiddleware`
under Django's default `APPEND_SLASH = True`).
-/

namespace DjangoProject

/-- Whether the first character list is a prefix of the second. Structural
helper used to model Python string operations so that every definition
reduces by computation. -/
def isPre : List Char → List Char → Bool
  | [], _ => true
  | _, [] => false
  | a :: as, b :: bs => a == b && isPre as bs

/-- Python `s.startswith(pre)` on the character sequence. -/
def strStarts (pre s : String) : Bool := isPre pre.data s.data

/-- Python `s.endswith(post)` on the character sequence. -/
def strEnds (post s : String) : Bool := isPre post.data.reverse s.data.reverse

/-- Python `s[n:]`: drops the first `n` characters. -/
def strDropN (s : String) (n : Nat) : String := ⟨s.data.drop n⟩

/-- An inbound HTTP request, reduced to the fields the program inspects:
the method and the request path (`path_info`, starting with a slash). -/
structure HttpRequest where
  method : String
  path : String
deriving DecidableEq, Repr

/-- Response payloads the modelled stack can produce: a JSON object of
string fields (both views return flat string-valued JSON objects), a
static file identified by its path relative to the static root, or no
body (used for framework-generated error and redirect pages, whose HTML
text the claims never inspect). -/
inductive ResponseBody where
  | jsonObj : List (String × String) → ResponseBody
  | file : String → ResponseBody
  | empty : ResponseBody
deriving DecidableEq, Repr

/-- An HTTP response: status code, declared content type, body, and the
redirect target when the response is a redirect. -/
structure HttpResponse where
  status : Nat
  contentType : String
  body : ResponseBody
  redirectTo : Option String
deriving DecidableEq, Repr

/-! ## Settings (`myproject/settings.py`) -/

/-- `SECRET_KEY = 'django-insecure-test-key-12345'` -/
def SECRET_KEY : String := "django-insecure-test-key-12345"

/-- `DEBUG = True` -/
def DEBUG : Bool := true

/-- `ALLOWED_HOSTS = ['*']` -/
def ALLOWED_HOSTS : List String := ["*"]

/-- `INSTALLED_APPS` from `settings.py`. -/
def INSTALLED_APPS : List String :=
  ["django.contrib.contenttypes",
   "django.contrib.staticfiles",
   "rest_framework",
   "corsheaders"]

/-- `MIDDLEWARE` from `settings.py`. -/
def MIDDLEWARE : List String :=
  ["corsheaders.middleware.CorsMiddleware",
   "django.middleware.common.CommonMiddleware"]

/-- `ROOT_URLCONF = 'myproject.urls'` -/
def ROOT_URLCONF : String := "myproject.urls"

/-- `CORS_ALLOW_ALL_ORIGINS = True` -/
def CORS_ALLOW_ALL_ORIGINS : Bool := true

/-- `STATIC_URL = 'static/'` -/
def STATIC_URL : String := "static/"

/-- Django's `APPEND_SLASH` setting. `settings.py` does not set it, so it
keeps Django's default value `True`; `CommonMiddleware` reads it. -/
def APPEND_SLASH : Bool := true

/-! ## Views and URL patterns (`myproject/urls.py`) -/

/-- `django.http.JsonResponse(data)`: a 200 response with content type
`application/json` whose body serialises `data`. -/
def jsonResponse (data : List (String × String)) : HttpResponse :=
  { status := 200
    contentType := "application/json"
    body := .jsonObj data
    redirectTo := none }

/-- `def home(request): return JsonResponse({"message": "Django Python API - Testing Auto-Docker Extension"})` -/
def home (_request : HttpRequest) : HttpResponse :=
  jsonResponse [("message", "Django Python API - Testing Auto-Docker Extension")]

/-- `def health(request): return JsonResponse({"status": "healthy"})` -/
def health (_request : HttpRequest) : HttpResponse :=
  jsonResponse [("status", "healthy")]

/-- Names for the two view functions of `urls.py`, so that URL resolution
returns a value with decidable equality. -/
inductive View where
  | home : View
  | health : View
deriving DecidableEq, Repr

/-- Applies the view a resolved pattern names. -/
def runView : View → HttpRequest → HttpResponse
  | .home, r => home r
  | .health, r => health r

/-- `urlpatterns = [path('', home), path('health/', health)]` -/
def urlpatterns : List (String × View) :=
  [("", .home), ("health/", .health)]

/-- Django URL resolution for this project: the root resolver strips the
leading `/` of `path_info` and a `path()` route with no converters
matches the remainder literally, so a pattern `pat` matches exactly the
request path `"/" ++ pat`. The first matching entry wins. -/
def resolve (p : String) : Option View :=
  (urlpatterns.find? (fun e => p == "/" ++ e.1)).map Prod.snd

/-! ## Framework dispatch for the configured stack -/

/-- Django's default not-found response (with `DEBUG = True` it carries an
HTML debug page; the claims only inspect the status). -/
def notFoundResponse : HttpResponse :=
  { status := 404, contentType := "text/html", body := .empty, redirectTo := none }

/-- The permanent redirect `CommonMiddleware` issues when `APPEND_SLASH`
applies. -/
def redirectResponse (loc : String) : HttpResponse :=
  { status := 301, contentType := "text/html", body := .empty, redirectTo := some loc }

/-- The URL under which static assets are served: `STATIC_URL` made
absolute. -/
def staticBase : String := "/" ++ STATIC_URL

/-- Splits a request path under the static URL: returns the path relative
to the static root when the request path starts with `staticBase`. -/
def splitStatic (p : String) : Option String :=
  if strStarts staticBase p then some (strDropN p staticBase.length) else none

/-- The development static-file view: serves the named file when it
exists among the collected static files `store`, else responds not-found. -/
def staticServe (store : List String) (rel : String) : HttpResponse :=
  if store.contains rel then
    { status := 200, contentType := "application/octet-stream",
      body := .file rel, redirectTo := none }
  else notFoundResponse

/-- Whether `CommonMiddleware` redirects an unresolved request path by
appending a slash: `APPEND_SLASH` is on, the path does not already end in
a slash, and the slash-appended path resolves. -/
def appendSlashRedirects (p : String) : Bool :=
  MIDDLEWARE.contains "django.middleware.common.CommonMiddleware"
    && APPEND_SLASH && !(strEnds "/" p) && (resolve (p ++ "/")).isSome

/-- Request handling of the configured stack. `store` is the set of
existing static files (paths relative to the static root). With
`django.contrib.staticfiles` installed and `DEBUG = True` the development
server serves paths under `staticBase` from the static files; other paths
go through URL resolution; an unresolved path is redirected by
`CommonMiddleware` when appending a slash would resolve, and otherwise
falls through to the default not-found response. -/
def handleRequest (store : List String) (req : HttpRequest) : HttpResponse :=
  if DEBUG && INSTALLED_APPS.contains "django.contrib.staticfiles"
      && strStarts staticBase req.path then
    staticServe store (strDropN req.path staticBase.length)
  else
    match resolve req.path with
    | some v => runView v req
    | none =>
      if appendSlashRedirects req.path then redirectResponse (req.path ++ "/")
      else notFoundResponse

/-! ## Host validation and CORS decision -/

/-- Django's host pattern match (`django.http.request.validate_host`):
`"*"` matches every host, a pattern starting with a dot matches the
domain and its subdomains, anything else matches exactly. -/
def matchHostPattern (host pat : String) : Bool :=
  if pat == "*" then true
  else if strStarts "." pat then strEnds pat host || host == strDropN pat 1
  else host == pat

/-- Whether a request host passes validation against `ALLOWED_HOSTS`. -/
def validateHost (host : String) : Bool :=
  ALLOWED_HOSTS.any (matchHostPattern host)

/-- The origin decision of `corsheaders.middleware.CorsMiddleware` as
configured here: with `CORS_ALLOW_ALL_ORIGINS = True` every origin is
allowed. -/
def corsOriginAllowed (_origin : String) : Bool :=
  CORS_ALLOW_ALL_ORIGINS

/-! ## Routing lemmas -/

/-- A request path other than `/` and `/health/` matches no entry of
`urlpatterns`. -/
theorem resolve_eq_none (p : String) (h1 : p ≠ "/") (h2 : p ≠ "/health/") :
    resolve p = none := by
  have e1 : ("/" ++ "" : String) = "/" := rfl
  have e2 : ("/" ++ "health/" : String) = "/health/" := rfl
  have b1 : (p == "/") = false := by simpa using h1
  have b2 : (p == "/health/") = false := by simpa using h2
  simp [resolve, urlpatterns, List.find?, e1, e2, b1, b2]

/-- A path not under the static URL fails the static-prefix test. -/
theorem splitStatic_none_starts (p : String) (h : splitStatic p = none) :
    strStarts staticBase p = false := by
  by_cases hs : strStarts staticBase p = true
  · simp [splitStatic, hs] at h
  · simpa using hs

/-! ## Claim theorems -/

/-- Claim C1: for every HTTP request whose path is `/`, the dispatched
handler is `home` and the response has status 200 and exact JSON body
`{"message": "Django Python API - Testing Auto-Docker Extension"}`. -/
theorem home_route_ok (store : List String) (req : HttpRequest)
    (h : req.path = "/") :
    resolve req.path = some View.home ∧
    handleRequest store req = home req ∧
    (home req).status = 200 ∧
    (home req).body =
      .jsonObj [("message", "Django Python API - Testing Auto-Docker Extension")] := by
  obtain ⟨m, p⟩ := req
  subst h
  exact ⟨rfl, rfl, rfl, rfl⟩

/-- Witness for C1 at the concrete request `GET /`. -/
theorem home_route_ok_witness :
    resolve "/" = some View.home ∧
    handleRequest [] ⟨"GET", "/"⟩ = home ⟨"GET", "/"⟩ ∧
    (home ⟨"GET", "/"⟩).status = 200 ∧
    (home ⟨"GET", "/"⟩).body =
      .jsonObj [("message", "Django Python API - Testing Auto-Docker Extension")] :=
  home_route_ok [] ⟨"GET", "/"⟩ rfl

/-- Claim C2: for every HTTP request whose path is `/health/`, the
dispatched handler is `health` and the response has status 200 and exact
JSON body `{"status": "healthy"}`. -/
theorem health_route_ok (store : List String) (req : HttpRequest)
    (h : req.path = "/health/") :
    resolve req.path = some View.health ∧
    handleRequest store req = health req ∧
    (health req).status = 200 ∧
    (health req).body = .jsonObj [("status", "healthy")] := by
  obtain ⟨m, p⟩ := req
  subst h
  exact ⟨rfl, rfl, rfl, rfl⟩

/-- Witness for C2 at the concrete request `GET /health/`. -/
theorem health_route_ok_witness :
    resolve "/health/" = some View.health ∧
    handleRequest [] ⟨"GET", "/health/"⟩ = health ⟨"GET", "/health/"⟩ ∧
    (health ⟨"GET", "/health/"⟩).status = 200 ∧
    (health ⟨"GET", "/health/"⟩).body = .jsonObj [("status", "healthy")] :=
  health_route_ok [] ⟨"GET", "/health/"⟩ rfl

/-- Claim C3 (counterexample): the path `/health` differs from `/` and
`/health/` and matches no entry of `urlpatterns`, yet the configured
stack does not return the default not-found response for it:
`CommonMiddleware` issues a 301 redirect to `/health/` because
`APPEND_SLASH` applies. -/
theorem unmatched_not_found_counterexample :
    ("/health" ≠ "/" ∧ "/health" ≠ "/health/") ∧
    resolve "/health" = none ∧
    handleRequest [] ⟨"GET", "/health"⟩ ≠ notFoundResponse ∧
    handleRequest [] ⟨"GET", "/health"⟩ = redirectResponse "/health/" := by
  decide

/-- Claim C3 (amended): for every request path other than `/` and
`/health/` that does not lie under the static URL, no entry of
`urlpatterns` matches, and the result is either the framework's default
not-found response or the trailing-slash 301 redirect issued by
`CommonMiddleware` when the slash-appended path resolves. -/
theorem unmatched_not_found_or_redirect (store : List String) (req : HttpRequest)
    (h1 : req.path ≠ "/") (h2 : req.path ≠ "/health/")
    (h3 : splitStatic req.path = none) :
    resolve req.path = none ∧
      (handleRequest store req = notFoundResponse ∨
       handleRequest store req = redirectResponse (req.path ++ "/")) := by
  have hr := resolve_eq_none req.path h1 h2
  have hs := splitStatic_none_starts req.path h3
  refine ⟨hr, ?_⟩
  by_cases ha : appendSlashRedirects req.path = true
  · right; simp [handleRequest, hs, hr, ha]
  · left; simp [handleRequest, hs, hr, ha]

/-- Witness for the amended C3 at the concrete request `GET /nope`. -/
theorem unmatched_not_found_or_redirect_witness :
    resolve "/nope" = none ∧
      (handleRequest [] ⟨"GET", "/nope"⟩ = notFoundResponse ∨
       handleRequest [] ⟨"GET", "/nope"⟩ = redirectResponse ("/nope" ++ "/")) :=
  unmatched_not_found_or_redirect [] ⟨"GET", "/nope"⟩
    (by decide) (by decide) (by decide)

/-- Claim C4: every response produced by the `home` and `health` handlers
declares content type `application/json`. -/
theorem handlers_content_type_json (r : HttpRequest) :
    (home r).contentType = "application/json" ∧
    (health r).contentType = "application/json" :=
  ⟨rfl, rfl⟩

/-- Claim C5: the `home` and `health` handlers are constant functions of
their request: any two requests produce identical payloads. -/
theorem handlers_constant (r1 r2 : HttpRequest) :
    home r1 = home r2 ∧ health r1 = health r2 :=
  ⟨rfl, rfl⟩

/-- Claim C6: `CORS_ALLOW_ALL_ORIGINS` is `True`, the corsheaders CORS
middleware is present in `MIDDLEWARE`, and consequently every
cross-origin caller is permitted. -/
theorem cors_allows_all_origins :
    CORS_ALLOW_ALL_ORIGINS = true ∧
    "corsheaders.middleware.CorsMiddleware" ∈ MIDDLEWARE ∧
    ∀ origin : String, corsOriginAllowed origin = true :=
  ⟨rfl, by decide, fun _ => rfl⟩

/-- Claim C7: the configuration sets `DEBUG` to `True` and
`ALLOWED_HOSTS` to `['*']`, and host validation accepts every host. -/
theorem debug_on_and_all_hosts_allowed :
    DEBUG = true ∧
    ALLOWED_HOSTS = ["*"] ∧
    ∀ host : String, validateHost host = true :=
  ⟨rfl, rfl, fun _ => rfl⟩

/-- Claim C8: a request whose path lies under the static URL `/static/`
is resolved to the static files rather than to the not-found response:
when the named file exists among the static files, it is served with
status 200. -/
theorem static_paths_served (store : List String) (req : HttpRequest)
    (rel : String) (hsplit : splitStatic req.path = some rel)
    (hmem : store.contains rel = true) :
    handleRequest store req =
      { status := 200, contentType := "application/octet-stream",
        body := .file rel, redirectTo := none } ∧
    handleRequest store req ≠ notFoundResponse := by
  have hstart : strStarts staticBase req.path = true := by
    by_cases h : strStarts staticBase req.path = true
    · exact h
    · simp [splitStatic, h] at hsplit
  have hdrop : strDropN req.path staticBase.length = rel := by
    simpa [splitStatic, hstart] using hsplit
  have hmem' : rel ∈ store := by simpa using hmem
  have happ : ("django.contrib.staticfiles" : String) ∈ INSTALLED_APPS := by decide
  have hmain : handleRequest store req =
      { status := 200, contentType := "application/octet-stream",
        body := .file rel, redirectTo := none } := by
    simp [handleRequest, hstart, hdrop, staticServe, hmem', happ, DEBUG]
  refine ⟨hmain, ?_⟩
  rw [hmain]
  simp [notFoundResponse]

/-- Witness for C8 at the concrete request `GET /static/css/app.css`
with `css/app.css` among the static files. -/
theorem static_paths_served_witness :
    handleRequest ["css/app.css"] ⟨"GET", "/static/css/app.css"⟩ =
      { status := 200, contentType := "application/octet-stream",
        body := .file "css/app.css", redirectTo := none } ∧
    handleRequest ["css/app.css"] ⟨"GET", "/static/css/app.css"⟩ ≠ notFoundResponse :=
  static_paths_served ["css/app.css"] ⟨"GET", "/static/css/app.css"⟩
    "css/app.css" (by decide) (by decide)

/-- Claim C9: the `home` and `health` handlers impose no HTTP method
restriction: every method sent to `/` or `/health/` yields the same 200
JSON response. -/
theorem any_method_same_response (store : List String) (m m' : String) :
    handleRequest store ⟨m, "/"⟩ = handleRequest store ⟨m', "/"⟩ ∧
    handleRequest store ⟨m, "/health/"⟩ = handleRequest store ⟨m', "/health/"⟩ ∧
    (handleRequest store ⟨m, "/"⟩).status = 200 ∧
    (handleRequest store ⟨m, "/health/"⟩).status = 200 ∧
    (handleRequest store ⟨m, "/"⟩).body =
      .jsonObj [("message", "Django Python API - Testing Auto-Docker Extension")] ∧
    (handleRequest store ⟨m, "/health/"⟩).body = .jsonObj [("status", "healthy")] :=
  ⟨rfl, rfl, rfl, rfl, rfl, rfl⟩

/-- Claim C10: the route table registers `health/` only with the trailing
slash: `health/` appears in `urlpatterns`, no entry uses `health` without
the slash, and the request path `/health` matches no entry. -/
theorem health_requires_trailing_slash :
    ("health/", View.health) ∈ urlpatterns ∧
    (∀ v : View, ("health", v) ∉ urlpatterns) ∧
    resolve "/health" = none := by
  refine ⟨by decide, ?_, by decide⟩
  intro v
  cases v <;> decide

end DjangoProject
